import Mathlib

set_option maxRecDepth 100000

/-!
Verification development for the client-side sentiment-analysis frontend
(`src/frontend/script.js`).  The script is shallowly embedded: DOM fields and
the module-scoped chart reference become fields of an explicit `AppState`;
the external chart library is modelled by a registry of live instance ids;
observable actions (toggling the submit control, issuing the network request,
destroying and creating chart instances) are recorded in an event log.
-/

/-- Observable events emitted while the script runs: submit-control toggles,
network requests, and chart-instance destruction/creation. -/
inductive Ev where
  | setDisabled (b : Bool)
  | fetchPost (url : String)
  | destroyChart (id : Nat)
  | createChart (id : Nat) (positive : Nat) (negative : Nat)
deriving DecidableEq, Repr

/-- State of the page: the DOM fields the script writes, the module-scoped
`sentimentChart` variable (line 12 of the script, holding an instance id or
none for `null`), the set of chart instances the chart library currently keeps
alive, a fresh-id counter for new instances, and the event log. -/
structure AppState where
  errorMessage : String
  resultsDisplay : String
  summaryHTML : String
  analyzeDisabled : Bool
  analyzeHTML : String
  sentimentChart : Option Nat
  aliveCharts : List Nat
  nextChartId : Nat
  log : List Ev
deriving DecidableEq, Repr

/-- Page state when the DOM has just loaded: empty error text, hidden results,
empty summary, enabled button labelled Analyze, `sentimentChart = null`,
and no chart instance alive. -/
def initialState : AppState :=
  { errorMessage := ""
    resultsDisplay := "none"
    summaryHTML := ""
    analyzeDisabled := false
    analyzeHTML := "Analyze"
    sentimentChart := none
    aliveCharts := []
    nextChartId := 0
    log := [] }

/-- Characters removed by the JavaScript builtin `String.prototype.trim`
(modelled for the common whitespace characters: space, tab, newline,
carriage return). -/
def isJsWhitespace (c : Char) : Bool :=
  c = ' ' || c = '\t' || c = '\n' || c = '\r'

/-- Model of the JavaScript builtin `String.prototype.trim`: drop whitespace
from both ends. -/
def jsTrim (s : String) : String :=
  ⟨((s.data.dropWhile isJsWhitespace).reverse.dropWhile isJsWhitespace).reverse⟩

/-- Model of the JavaScript expression `a || fallback` for an optional string
field `a` (line 43: `data.detail || "An unknown error occurred."`): an absent
field and the empty string are both falsy. -/
def jsOr (a : Option String) (fallback : String) : String :=
  match a with
  | some str => if str = "" then fallback else str
  | none => fallback

/-- A parsed JSON response body.  A well-formed success body carries
`positive` and `negative` counts; a failure body may carry a `detail`
field (absent fields are `none` / `0`). -/
structure JsonObj where
  detail : Option String
  positive : Nat
  negative : Nat
deriving DecidableEq, Repr

/-- Result of reading the body of a received response: `response.json()`
either rejects (malformed or absent JSON, with the parse-failure description)
or yields a parsed object. -/
inductive BodyResult where
  | malformed (desc : String)
  | json (data : JsonObj)
deriving DecidableEq, Repr

/-- Outcome of the `fetch` call: either a transport-level failure (the
promise rejects, no response received, with the failure description) or a
response with an `ok` flag (2xx) and a body. -/
inductive FetchOutcome where
  | transportFailure (desc : String)
  | response (ok : Bool) (body : BodyResult)
deriving DecidableEq, Repr

/-- Lines 139-141: `showError` writes the message into the error-message
region. -/
def showError (message : String) (s : AppState) : AppState :=
  { s with errorMessage := message }

/-- Lines 134-137: `setLoadingState` disables or re-enables the analyze
button and swaps its label.  The toggle is recorded in the event log. -/
def setLoadingState (isLoading : Bool) (s : AppState) : AppState :=
  { s with
    analyzeDisabled := isLoading
    analyzeHTML :=
      if isLoading then "<i class=\"fa-solid fa-spinner fa-spin\"></i> Analyzing..."
      else "Analyze"
    log := s.log ++ [Ev.setDisabled isLoading] }

/-- Model of `chart.destroy()`: the chart library removes the instance from
its live set; the caller keeps whatever reference it held. -/
def destroyChart (id : Nat) (s : AppState) : AppState :=
  { s with aliveCharts := s.aliveCharts.erase id, log := s.log ++ [Ev.destroyChart id] }

/-- Lines 143-150: `clearResults` blanks the error text, hides the results
container, empties the summary, and, if the `sentimentChart` variable is set,
destroys that instance.  Note the variable itself is not reset to `null`. -/
def clearResults (s : AppState) : AppState :=
  let s1 := { s with errorMessage := "", resultsDisplay := "none", summaryHTML := "" }
  match s1.sentimentChart with
  | some c => destroyChart c s1
  | none => s1

/-- Line 103: the labels of the two pie slices. -/
def chartLabels : List String := ["Positive", "Negative"]

/-- Line 105: the dataset values of the two pie slices. -/
def dataList (positive : Nat) (negative : Nat) : List Nat := [positive, negative]

/-- Model of `context.chart.getDatasetMeta(0).total` (line 122): the chart
library sums the values of the rendered dataset. -/
def datasetMetaTotal (ds : List Nat) : Nat := ds.sum

/-- Tenths of a percent shown by `(num / den).toFixed(1)` (line 123), with
the JavaScript number modelled as the exact rational `num / den`: round to
the nearest tenth, picking the larger candidate on a tie, as ECMA `toFixed`
does.  Computed as `⌊10 * num / den + 1 / 2⌋` by integer arithmetic. -/
def tooltipPercentTenths (num : Nat) (den : Nat) : Nat :=
  (num * 10 * 2 + den) / (2 * den)

/-- String produced by `(num / den).toFixed(1)` in the exact-rational model:
the rounded tenths rendered with one decimal digit. -/
def toFixed1Str (num : Nat) (den : Nat) : String :=
  let n := tooltipPercentTenths num den
  toString (n / 10) ++ "." ++ toString (n % 10)

/-- Lines 119-125: the tooltip label callback.  `value / total` is scaled to
a percentage, fixed to one decimal, and rendered as
`label: value (percentage%)`. -/
def tooltipCallback (label : String) (value : Nat) (total : Nat) : String :=
  label ++ ": " ++ toString value ++ " (" ++ toFixed1Str (value * 100) total ++ "%)"

/-- Tooltip text of slice `i` of the chart created for `positive`/`negative`
counts: the label and value come from the rendered lists (lines 103, 105) and
the total from the chart library's dataset metadata (line 122). -/
def chartTooltip (positive : Nat) (negative : Nat) (i : Fin 2) : String :=
  tooltipCallback (chartLabels.get ⟨i.val, i.isLt⟩)
    ((dataList positive negative).get ⟨i.val, i.isLt⟩)
    (datasetMetaTotal (dataList positive negative))

/-- Lines 95-131: `createOrUpdateChart` destroys the instance the
`sentimentChart` variable points to (if any), then constructs a fresh chart
over the two counts and stores its reference. -/
def createOrUpdateChart (data : JsonObj) (s : AppState) : AppState :=
  let s1 :=
    match s.sentimentChart with
    | some c => destroyChart c s
    | none => s
  { s1 with
    sentimentChart := some s1.nextChartId
    nextChartId := s1.nextChartId + 1
    aliveCharts := s1.aliveCharts ++ [s1.nextChartId]
    log := s1.log ++ [Ev.createChart s1.nextChartId data.positive data.negative] }

/-- Line 66: the summary markup for the zero-comment branch. -/
def noCommentsHTML : String :=
  "<h3>No comments were analyzed.</h3><p>The video may have no comments, or they could not be processed.</p>"

/-- Lines 71-85: the summary markup for the three-stat branch, taking the
three displayed numbers. -/
def summaryStatsHTML (positive : Nat) (negative : Nat) (total : Nat) : String :=
  "\n            <h3>Analysis Summary</h3>\n            <div class=\"stat\">\n                <i class=\"fa-solid fa-thumbs-up stat-icon positive\"></i>\n                <span><strong>" ++
    toString positive ++
    "</strong> Positive Comments</span>\n            </div>\n            <div class=\"stat\">\n                <i class=\"fa-solid fa-thumbs-down stat-icon negative\"></i>\n                <span><strong>" ++
    toString negative ++
    "</strong> Negative Comments</span>\n            </div>\n             <div class=\"stat\">\n                <i class=\"fa-solid fa-comments stat-icon\"></i>\n                <span><strong>" ++
    toString total ++
    "</strong> Total Comments Analyzed</span>\n            </div>\n        "

/-- Lines 60-89: `displayResults` shows the results container, computes
`total = positive + negative`, and either renders the no-comments message
(returning before any chart work) or renders the three stats and calls
`createOrUpdateChart`. -/
def displayResults (data : JsonObj) (s : AppState) : AppState :=
  let s1 := { s with resultsDisplay := "flex" }
  let total := data.positive + data.negative
  if total = 0 then
    { s1 with summaryHTML := noCommentsHTML }
  else
    createOrUpdateChart data
      { s1 with summaryHTML := summaryStatsHTML data.positive data.negative total }

/-- Lines 28-29: the steps run after validation and before the request is
issued: disable the control, then clear previous error text, results and
chart. -/
def preFetchState (s : AppState) : AppState :=
  clearResults (setLoadingState true s)

/-- The `fetch` call at line 33 is issued (recorded in the log); its outcome
is supplied separately. -/
def recordFetch (url : String) (s : AppState) : AppState :=
  { s with log := s.log ++ [Ev.fetchPost url] }

/-- Lines 39-50: handling of a resolved or rejected `fetch`.  The body is
parsed first (line 39), so a malformed body throws before the `ok` check; a
non-2xx response throws `data.detail || "An unknown error occurred."`
(line 43); every thrown error is rendered as `Error: ` ++ its message
(line 50); a 2xx response with a parsed body reaches `displayResults`. -/
def dispatchOutcome (net : FetchOutcome) (s : AppState) : AppState :=
  match net with
  | FetchOutcome.transportFailure desc => showError ("Error: " ++ desc) s
  | FetchOutcome.response ok body =>
    match body with
    | BodyResult.malformed desc => showError ("Error: " ++ desc) s
    | BodyResult.json data =>
      if ok then displayResults data s
      else showError ("Error: " ++ jsOr data.detail "An unknown error occurred.") s

/-- Lines 21-54: `handleAnalysis`.  The input is trimmed; when empty the
validation error is shown and nothing else happens; otherwise the control is
disabled, previous output cleared, the request issued, the outcome handled,
and finally (in every outcome) the control re-enabled. -/
def handleAnalysis (inputValue : String) (net : FetchOutcome) (s : AppState) : AppState :=
  let url := jsTrim inputValue
  if url = "" then
    showError "Please paste a YouTube video URL." s
  else
    setLoadingState false (dispatchOutcome net (recordFetch url (preFetchState s)))

/-- Chart-ownership invariant: every live instance is the one the
`sentimentChart` variable points to, so at most one instance is alive. -/
def ChartInv (s : AppState) : Prop :=
  s.aliveCharts = [] ∨ ∃ c, s.sentimentChart = some c ∧ s.aliveCharts = [c]

/-- No submit-control toggle occurs in a list of events. -/
def noSetDisabled (t : List Ev) : Prop :=
  ∀ e ∈ t, ∀ b, e ≠ Ev.setDisabled b

/-- Spec-side formula, stated from the specification text: the tooltip
percentage is `round(v / t * 100, 1 decimal place)`, expressed here in tenths
of a percent (nearest tenth, ties rounded up).  It exists only to compare the
code model against the spec formula. -/
def specRound1Tenths (v t : Nat) : Int :=
  ⌊(v : ℚ) / (t : ℚ) * 100 * 10 + 1 / 2⌋

/-- Concrete state holding one live chart, used as a test vehicle below. -/
def chartState : AppState := createOrUpdateChart ⟨none, 10, 5⟩ initialState

/-- Concrete state after a successful analysis of a video with 10 positive
and 5 negative comments. -/
def sResults : AppState :=
  handleAnalysis "https://youtu.be/abc"
    (FetchOutcome.response true (BodyResult.json ⟨none, 10, 5⟩)) initialState

/-- Concrete state after submitting empty input from `sResults`. -/
def sAfterEmpty : AppState :=
  handleAnalysis "" (FetchOutcome.transportFailure "unused") sResults

section HelperLemmas

variable (s : AppState)

@[simp] theorem showError_errorMessage (m : String) : (showError m s).errorMessage = m := rfl

@[simp] theorem showError_summaryHTML (m : String) : (showError m s).summaryHTML = s.summaryHTML := rfl

@[simp] theorem showError_resultsDisplay (m : String) :
    (showError m s).resultsDisplay = s.resultsDisplay := rfl

@[simp] theorem showError_log (m : String) : (showError m s).log = s.log := rfl

@[simp] theorem showError_aliveCharts (m : String) :
    (showError m s).aliveCharts = s.aliveCharts := rfl

@[simp] theorem showError_sentimentChart (m : String) :
    (showError m s).sentimentChart = s.sentimentChart := rfl

@[simp] theorem setLoadingState_analyzeDisabled (b : Bool) :
    (setLoadingState b s).analyzeDisabled = b := rfl

@[simp] theorem setLoadingState_errorMessage (b : Bool) :
    (setLoadingState b s).errorMessage = s.errorMessage := rfl

@[simp] theorem setLoadingState_summaryHTML (b : Bool) :
    (setLoadingState b s).summaryHTML = s.summaryHTML := rfl

@[simp] theorem setLoadingState_resultsDisplay (b : Bool) :
    (setLoadingState b s).resultsDisplay = s.resultsDisplay := rfl

@[simp] theorem setLoadingState_log (b : Bool) :
    (setLoadingState b s).log = s.log ++ [Ev.setDisabled b] := rfl

@[simp] theorem setLoadingState_aliveCharts (b : Bool) :
    (setLoadingState b s).aliveCharts = s.aliveCharts := rfl

@[simp] theorem setLoadingState_sentimentChart (b : Bool) :
    (setLoadingState b s).sentimentChart = s.sentimentChart := rfl

@[simp] theorem recordFetch_errorMessage (url : String) :
    (recordFetch url s).errorMessage = s.errorMessage := rfl

@[simp] theorem recordFetch_summaryHTML (url : String) :
    (recordFetch url s).summaryHTML = s.summaryHTML := rfl

@[simp] theorem recordFetch_resultsDisplay (url : String) :
    (recordFetch url s).resultsDisplay = s.resultsDisplay := rfl

@[simp] theorem recordFetch_log (url : String) :
    (recordFetch url s).log = s.log ++ [Ev.fetchPost url] := rfl

@[simp] theorem recordFetch_aliveCharts (url : String) :
    (recordFetch url s).aliveCharts = s.aliveCharts := rfl

@[simp] theorem recordFetch_sentimentChart (url : String) :
    (recordFetch url s).sentimentChart = s.sentimentChart := rfl

@[simp] theorem recordFetch_analyzeDisabled (url : String) :
    (recordFetch url s).analyzeDisabled = s.analyzeDisabled := rfl

@[simp] theorem clearResults_errorMessage : (clearResults s).errorMessage = "" := by
  cases h : s.sentimentChart <;> simp [clearResults, destroyChart, h]

@[simp] theorem clearResults_summaryHTML : (clearResults s).summaryHTML = "" := by
  cases h : s.sentimentChart <;> simp [clearResults, destroyChart, h]

@[simp] theorem clearResults_resultsDisplay : (clearResults s).resultsDisplay = "none" := by
  cases h : s.sentimentChart <;> simp [clearResults, destroyChart, h]

@[simp] theorem clearResults_sentimentChart :
    (clearResults s).sentimentChart = s.sentimentChart := by
  cases h : s.sentimentChart <;> simp [clearResults, destroyChart, h]

@[simp] theorem clearResults_analyzeDisabled :
    (clearResults s).analyzeDisabled = s.analyzeDisabled := by
  cases h : s.sentimentChart <;> simp [clearResults, destroyChart, h]

@[simp] theorem clearResults_nextChartId :
    (clearResults s).nextChartId = s.nextChartId := by
  cases h : s.sentimentChart <;> simp [clearResults, destroyChart, h]

theorem clearResults_log_shape :
    ∃ t, (clearResults s).log = s.log ++ t ∧ noSetDisabled t := by
  cases h : s.sentimentChart with
  | none => exact ⟨[], by simp [clearResults, destroyChart, h], by simp [noSetDisabled]⟩
  | some c => exact ⟨[Ev.destroyChart c], by simp [clearResults, destroyChart, h],
      by simp [noSetDisabled]⟩

@[simp] theorem createOrUpdateChart_summaryHTML (d : JsonObj) :
    (createOrUpdateChart d s).summaryHTML = s.summaryHTML := by
  cases h : s.sentimentChart <;> simp [createOrUpdateChart, destroyChart, h]

@[simp] theorem createOrUpdateChart_errorMessage (d : JsonObj) :
    (createOrUpdateChart d s).errorMessage = s.errorMessage := by
  cases h : s.sentimentChart <;> simp [createOrUpdateChart, destroyChart, h]

@[simp] theorem createOrUpdateChart_resultsDisplay (d : JsonObj) :
    (createOrUpdateChart d s).resultsDisplay = s.resultsDisplay := by
  cases h : s.sentimentChart <;> simp [createOrUpdateChart, destroyChart, h]

theorem createOrUpdateChart_log_shape (d : JsonObj) :
    ∃ t, (createOrUpdateChart d s).log = s.log ++ t ∧ noSetDisabled t := by
  cases h : s.sentimentChart with
  | none => exact ⟨[Ev.createChart s.nextChartId d.positive d.negative],
      by simp [createOrUpdateChart, destroyChart, h], by simp [noSetDisabled]⟩
  | some c => exact ⟨[Ev.destroyChart c, Ev.createChart s.nextChartId d.positive d.negative],
      by simp [createOrUpdateChart, destroyChart, h], by simp [noSetDisabled]⟩

theorem createOrUpdateChart_log_of_ref (d : JsonObj) (c : Nat)
    (hc : s.sentimentChart = some c) :
    (createOrUpdateChart d s).log =
      s.log ++ [Ev.destroyChart c, Ev.createChart s.nextChartId d.positive d.negative] := by
  simp [createOrUpdateChart, destroyChart, hc]

theorem displayResults_log_shape (d : JsonObj) :
    ∃ t, (displayResults d s).log = s.log ++ t ∧ noSetDisabled t := by
  by_cases htot : d.positive + d.negative = 0
  · exact ⟨[], by simp [displayResults, htot], by simp [noSetDisabled]⟩
  · obtain ⟨t, ht, hn⟩ := createOrUpdateChart_log_shape
      { s with resultsDisplay := "flex",
               summaryHTML := summaryStatsHTML d.positive d.negative (d.positive + d.negative) } d
    exact ⟨t, by simpa [displayResults, htot] using ht, hn⟩

theorem dispatchOutcome_log_shape (net : FetchOutcome) :
    ∃ t, (dispatchOutcome net s).log = s.log ++ t ∧ noSetDisabled t := by
  cases net with
  | transportFailure desc => exact ⟨[], by simp [dispatchOutcome], by simp [noSetDisabled]⟩
  | response ok body =>
    cases body with
    | malformed desc => exact ⟨[], by simp [dispatchOutcome], by simp [noSetDisabled]⟩
    | json data =>
      cases ok with
      | false => exact ⟨[], by simp [dispatchOutcome], by simp [noSetDisabled]⟩
      | true => simpa [dispatchOutcome] using displayResults_log_shape s data

end HelperLemmas

section ChartInvariant

/-- The chart invariant only concerns the live-instance set and the stored
reference, so it transports across any operation that preserves both. -/
theorem chartInv_of_fields (s t : AppState) (h1 : t.aliveCharts = s.aliveCharts)
    (h2 : t.sentimentChart = s.sentimentChart) (h : ChartInv s) : ChartInv t := by
  unfold ChartInv at *
  rw [h1, h2]
  exact h

theorem chartInv_clearResults (s : AppState) (h : ChartInv s) :
    ChartInv (clearResults s) ∧ (clearResults s).aliveCharts = [] := by
  rcases h with h | ⟨c, hc, ha⟩
  · cases href : s.sentimentChart <;>
      simp [ChartInv, clearResults, destroyChart, href, h]
  · simp [ChartInv, clearResults, destroyChart, hc, ha]

theorem chartInv_createOrUpdateChart (d : JsonObj) (s : AppState) (h : ChartInv s) :
    ChartInv (createOrUpdateChart d s) ∧
    (createOrUpdateChart d s).aliveCharts = [s.nextChartId] ∧
    (createOrUpdateChart d s).sentimentChart = some s.nextChartId ∧
    (createOrUpdateChart d s).nextChartId = s.nextChartId + 1 := by
  have halive : (match s.sentimentChart with
      | some c => destroyChart c s
      | none => s).aliveCharts = [] := by
    rcases h with h | ⟨c, hc, ha⟩
    · cases href : s.sentimentChart <;> simp [destroyChart, href, h]
    · simp [destroyChart, hc, ha]
  have hnext : (match s.sentimentChart with
      | some c => destroyChart c s
      | none => s).nextChartId = s.nextChartId := by
    cases href : s.sentimentChart <;> simp [destroyChart, href]
  refine ⟨Or.inr ⟨s.nextChartId, ?_, ?_⟩, ?_, ?_, ?_⟩ <;>
    simp [createOrUpdateChart, halive, hnext]

theorem chartInv_displayResults (d : JsonObj) (s : AppState) (h : ChartInv s) :
    ChartInv (displayResults d s) := by
  by_cases htot : d.positive + d.negative = 0
  · refine chartInv_of_fields s _ ?_ ?_ h <;> simp [displayResults, htot]
  · have h1 : ChartInv { s with resultsDisplay := "flex", summaryHTML := summaryStatsHTML d.positive d.negative (d.positive + d.negative) } :=
      chartInv_of_fields s _ rfl rfl h
    have h2 := (chartInv_createOrUpdateChart d _ h1).1
    refine chartInv_of_fields _ _ ?_ ?_ h2 <;> simp [displayResults, htot]

theorem chartInv_dispatchOutcome (net : FetchOutcome) (s : AppState) (h : ChartInv s) :
    ChartInv (dispatchOutcome net s) := by
  cases net with
  | transportFailure desc => exact chartInv_of_fields s _ rfl rfl h
  | response ok body =>
    cases body with
    | malformed desc => exact chartInv_of_fields s _ rfl rfl h
    | json data =>
      cases ok with
      | false => exact chartInv_of_fields s _ rfl rfl h
      | true => exact chartInv_displayResults data s h

theorem chartInv_handleAnalysis (inputValue : String) (net : FetchOutcome) (s : AppState)
    (h : ChartInv s) : ChartInv (handleAnalysis inputValue net s) := by
  by_cases hi : jsTrim inputValue = ""
  · have := chartInv_of_fields s (showError "Please paste a YouTube video URL." s) rfl rfl h
    simpa [handleAnalysis, hi] using this
  · have h1 : ChartInv (setLoadingState true s) := chartInv_of_fields s _ rfl rfl h
    have h2 : ChartInv (preFetchState s) := (chartInv_clearResults _ h1).1
    have h3 : ChartInv (recordFetch (jsTrim inputValue) (preFetchState s)) :=
      chartInv_of_fields _ _ rfl rfl h2
    have h4 := chartInv_dispatchOutcome net _ h3
    have h5 : ChartInv (setLoadingState false
        (dispatchOutcome net (recordFetch (jsTrim inputValue) (preFetchState s)))) :=
      chartInv_of_fields _ _ rfl rfl h4
    simpa [handleAnalysis, hi] using h5

end ChartInvariant

/-- Integer computation of the rounded tenths: the Nat-division formula used
in `tooltipPercentTenths` computes the floor of `a / b * 10 + 1 / 2`. -/
theorem percentTenths_eq_floor (a b : Nat) (hb : 0 < b) :
    ((a * 10 * 2 + b) / (2 * b) : Nat) = (⌊(a : ℚ) / (b : ℚ) * 10 + 1 / 2⌋ : Int) := by
  have hbQ : (b : ℚ) ≠ 0 := Nat.cast_ne_zero.mpr hb.ne'
  have key : (a : ℚ) / (b : ℚ) * 10 + 1 / 2 =
      ((a * 10 * 2 + b : Nat) : ℚ) / ((2 * b : Nat) : ℚ) := by
    push_cast
    rw [eq_div_iff (mul_ne_zero two_ne_zero hbQ)]
    field_simp
    ring_nf
    exact Or.inl trivial
  rw [key, Rat.floor_natCast_div_natCast]
  exact_mod_cast rfl

/-- C1: for every input string that is empty or whitespace-only after
trimming, `handleAnalysis` equals `showError` of exactly
"Please paste a YouTube video URL.", the rendered error text is exactly that
message, and the event log is unchanged — in particular no network request is
issued. -/
theorem c1_empty_input_validation (inputValue : String) (net : FetchOutcome) (s : AppState)
    (h : jsTrim inputValue = "") :
    handleAnalysis inputValue net s = showError "Please paste a YouTube video URL." s ∧
    (handleAnalysis inputValue net s).errorMessage = "Please paste a YouTube video URL." ∧
    (handleAnalysis inputValue net s).log = s.log := by
  refine ⟨?_, ?_, ?_⟩ <;> simp [handleAnalysis, h]

/-- Witness for C1 at a whitespace-only input. -/
theorem c1_witness :
    jsTrim "   " = "" ∧
    (handleAnalysis "   " (FetchOutcome.transportFailure "x") initialState =
        showError "Please paste a YouTube video URL." initialState ∧
      (handleAnalysis "   " (FetchOutcome.transportFailure "x") initialState).errorMessage =
        "Please paste a YouTube video URL." ∧
      (handleAnalysis "   " (FetchOutcome.transportFailure "x") initialState).log =
        initialState.log) :=
  ⟨by decide,
    c1_empty_input_validation "   " (FetchOutcome.transportFailure "x") initialState (by decide)⟩

/-- C2: for every non-empty trimmed input and every outcome, the run of
`handleAnalysis` disables the submit control (and never toggles it again)
before the network request event, re-enables it as its final control action,
and ends with the control enabled — so the control is disabled exactly for
the duration of the attempt, for success, service-error and transport-error
outcomes alike, including the outcomes modelling an exception thrown during
response processing. -/
theorem c2_submit_control_lifecycle (inputValue : String) (net : FetchOutcome) (s : AppState)
    (h : jsTrim inputValue ≠ "") :
    (handleAnalysis inputValue net s).analyzeDisabled = false ∧
    ∃ pre mid,
      (handleAnalysis inputValue net s).log =
        s.log ++ [Ev.setDisabled true] ++ pre ++ [Ev.fetchPost (jsTrim inputValue)] ++ mid ++
          [Ev.setDisabled false] ∧
      noSetDisabled pre ∧ noSetDisabled mid := by
  obtain ⟨pre, hpre, hpreN⟩ := clearResults_log_shape (setLoadingState true s)
  obtain ⟨mid, hmid, hmidN⟩ :=
    dispatchOutcome_log_shape (recordFetch (jsTrim inputValue) (preFetchState s)) net
  have hcall : handleAnalysis inputValue net s =
      setLoadingState false (dispatchOutcome net (recordFetch (jsTrim inputValue)
        (preFetchState s))) := by
    simp [handleAnalysis, h]
  have hP : (preFetchState s).log = s.log ++ [Ev.setDisabled true] ++ pre := by
    simpa [preFetchState] using hpre
  refine ⟨by rw [hcall]; simp, pre, mid, ?_, hpreN, hmidN⟩
  rw [hcall, setLoadingState_log, hmid, recordFetch_log, hP]
  try simp

/-- Witness for C2 at a concrete input and transport outcome. -/
theorem c2_witness :
    jsTrim "u" ≠ "" ∧
    ((handleAnalysis "u" (FetchOutcome.transportFailure "down") initialState).analyzeDisabled =
        false ∧
      ∃ pre mid,
        (handleAnalysis "u" (FetchOutcome.transportFailure "down") initialState).log =
          initialState.log ++ [Ev.setDisabled true] ++ pre ++ [Ev.fetchPost (jsTrim "u")] ++
            mid ++ [Ev.setDisabled false] ∧
        noSetDisabled pre ∧ noSetDisabled mid) :=
  ⟨by decide,
    c2_submit_control_lifecycle "u" (FetchOutcome.transportFailure "down") initialState
      (by decide)⟩

/-- C3 counterexample: a response whose body is malformed surfaces the parse
failure description, not the generic fallback message the claim requires for
every body without a `detail` field. -/
theorem c3_counterexample :
    (handleAnalysis "u"
        (FetchOutcome.response false (BodyResult.malformed "Unexpected end of JSON input"))
        initialState).errorMessage = "Error: Unexpected end of JSON input" ∧
    "Error: Unexpected end of JSON input" ≠ "Error: An unknown error occurred." := by
  decide

/-- C3 (amended): every non-2xx or malformed-body outcome ends in the error
state and never in results (summary stays empty, results region stays
hidden); a parsed non-2xx body uses its `detail` field when present and
non-empty and the generic fallback otherwise, while a malformed or absent
body surfaces the parse failure description; in particular a non-2xx response
with body detail "bad url" renders exactly "Error: bad url". -/
theorem c3_amended_error_mapping (inputValue : String) (s : AppState)
    (h : jsTrim inputValue ≠ "") :
    (∀ ok desc,
      (handleAnalysis inputValue (FetchOutcome.response ok (BodyResult.malformed desc))
          s).errorMessage = "Error: " ++ desc ∧
      (handleAnalysis inputValue (FetchOutcome.response ok (BodyResult.malformed desc))
          s).summaryHTML = "" ∧
      (handleAnalysis inputValue (FetchOutcome.response ok (BodyResult.malformed desc))
          s).resultsDisplay = "none") ∧
    (∀ data : JsonObj,
      (handleAnalysis inputValue (FetchOutcome.response false (BodyResult.json data))
          s).errorMessage = "Error: " ++ jsOr data.detail "An unknown error occurred." ∧
      (handleAnalysis inputValue (FetchOutcome.response false (BodyResult.json data))
          s).summaryHTML = "" ∧
      (handleAnalysis inputValue (FetchOutcome.response false (BodyResult.json data))
          s).resultsDisplay = "none") ∧
    (handleAnalysis inputValue
        (FetchOutcome.response false (BodyResult.json ⟨some "bad url", 0, 0⟩))
        s).errorMessage = "Error: bad url" := by
  have hd : jsOr (some "bad url") "An unknown error occurred." = "bad url" := by decide
  refine ⟨fun ok desc => ⟨?_, ?_, ?_⟩, fun data => ⟨?_, ?_, ?_⟩, ?_⟩ <;>
    simp [handleAnalysis, h, dispatchOutcome, preFetchState, hd]

/-- Witness for C3 (amended) at concrete inputs. -/
theorem c3_witness :
    jsTrim "u" ≠ "" ∧
    (handleAnalysis "u" (FetchOutcome.response false (BodyResult.malformed "parse failed"))
        initialState).errorMessage = "Error: parse failed" ∧
    (handleAnalysis "u" (FetchOutcome.response false (BodyResult.json ⟨none, 0, 0⟩))
        initialState).errorMessage = "Error: An unknown error occurred." ∧
    (handleAnalysis "u" (FetchOutcome.response false (BodyResult.json ⟨some "bad url", 0, 0⟩))
        initialState).errorMessage = "Error: bad url" :=
  ⟨by decide,
    ((c3_amended_error_mapping "u" initialState (by decide)).1 false "parse failed").1,
    by simpa using
      ((c3_amended_error_mapping "u" initialState (by decide)).2.1 ⟨none, 0, 0⟩).1,
    (c3_amended_error_mapping "u" initialState (by decide)).2.2⟩

/-- C4 counterexample: a transport failure and a service-reported failure
with the same description render the identical error message
"Error: bad url", so the transport message carries no prefix that
distinguishes it from a service-reported message. -/
theorem c4_counterexample :
    (handleAnalysis "u" (FetchOutcome.transportFailure "bad url")
        initialState).errorMessage = "Error: bad url" ∧
    (handleAnalysis "u" (FetchOutcome.response false (BodyResult.json ⟨some "bad url", 0, 0⟩))
        initialState).errorMessage = "Error: bad url" := by
  decide

/-- C4 (amended): a transport-level failure ends in the error state with the
underlying failure description prefixed by "Error: " — the same prefix every
service-reported error message carries — so the two classes differ only in
the description text, not in the prefix. -/
theorem c4_amended_transport_error (inputValue : String) (desc : String) (s : AppState)
    (h : jsTrim inputValue ≠ "") :
    (handleAnalysis inputValue (FetchOutcome.transportFailure desc) s).errorMessage =
      "Error: " ++ desc ∧
    (handleAnalysis inputValue (FetchOutcome.transportFailure desc) s).summaryHTML = "" ∧
    (∀ data : JsonObj,
      (handleAnalysis inputValue (FetchOutcome.response false (BodyResult.json data))
          s).errorMessage = "Error: " ++ jsOr data.detail "An unknown error occurred.") := by
  refine ⟨?_, ?_, fun data => ?_⟩ <;>
    simp [handleAnalysis, h, dispatchOutcome, preFetchState]

/-- Witness for C4 (amended) at a concrete transport failure. -/
theorem c4_witness :
    jsTrim "u" ≠ "" ∧
    (handleAnalysis "u" (FetchOutcome.transportFailure "Failed to fetch")
        initialState).errorMessage = "Error: Failed to fetch" :=
  ⟨by decide,
    (c4_amended_transport_error "u" "Failed to fetch" initialState (by decide)).1⟩

/-- C5 counterexample: after a successful analysis has rendered a summary,
submitting empty input enters the validation error state but leaves the
previously rendered summary content untouched, so entering this Error state
does not clear the summary. -/
theorem c5_counterexample :
    sResults.summaryHTML ≠ "" ∧
    sAfterEmpty.errorMessage = "Please paste a YouTube video URL." ∧
    sAfterEmpty.summaryHTML = sResults.summaryHTML ∧
    sAfterEmpty.summaryHTML ≠ "" := by
  decide

/-- C5 (amended): entering Loading (the pre-fetch phase of every non-empty
submission) clears all previously rendered summary content, so every Error
state reached through a network attempt shows an empty summary; the Error
produced by the empty-input validation path, however, leaves the previously
rendered summary content unchanged. -/
theorem c5_amended_clearing (inputValue : String) (net : FetchOutcome) (s : AppState) :
    (preFetchState s).summaryHTML = "" ∧
    (preFetchState s).resultsDisplay = "none" ∧
    (∀ desc, jsTrim inputValue ≠ "" →
      (handleAnalysis inputValue (FetchOutcome.transportFailure desc) s).summaryHTML = "") ∧
    (∀ ok desc, jsTrim inputValue ≠ "" →
      (handleAnalysis inputValue (FetchOutcome.response ok (BodyResult.malformed desc))
          s).summaryHTML = "") ∧
    (∀ data : JsonObj, jsTrim inputValue ≠ "" →
      (handleAnalysis inputValue (FetchOutcome.response false (BodyResult.json data))
          s).summaryHTML = "") ∧
    (jsTrim inputValue = "" →
      handleAnalysis inputValue net s = showError "Please paste a YouTube video URL." s ∧
      (handleAnalysis inputValue net s).summaryHTML = s.summaryHTML) := by
  refine ⟨?_, ?_, fun desc h => ?_, fun ok desc h => ?_, fun data h => ?_,
    fun h => ⟨?_, ?_⟩⟩ <;>
    simp [handleAnalysis, preFetchState, dispatchOutcome, *]

/-- Witness for C5 (amended) at concrete inputs. -/
theorem c5_witness :
    (preFetchState sResults).summaryHTML = "" ∧
    jsTrim "u" ≠ "" ∧
    (handleAnalysis "u" (FetchOutcome.transportFailure "down") sResults).summaryHTML = "" :=
  ⟨(c5_amended_clearing "u" (FetchOutcome.transportFailure "down") sResults).1,
    by decide,
    (c5_amended_clearing "u" (FetchOutcome.transportFailure "down") sResults).2.2.1 "down"
      (by decide)⟩

/-- C6: when `positive + negative = 0` the renderer selects the
no-comments branch — the summary shows the no-comments message, no chart
event (creation or destruction) is emitted, and the function returns before
any percentage computation; when `positive + negative > 0` the rendered
summary is the three-stat markup instantiated with the positive count, the
negative count, and a total equal to `positive + negative` exactly. -/
theorem c6_renderer_branches (detail : Option String) (p n : Nat) (s : AppState) :
    (p + n = 0 →
      (displayResults ⟨detail, p, n⟩ s).summaryHTML = noCommentsHTML ∧
      (displayResults ⟨detail, p, n⟩ s).log = s.log ∧
      (displayResults ⟨detail, p, n⟩ s).resultsDisplay = "flex") ∧
    (p + n ≠ 0 →
      (displayResults ⟨detail, p, n⟩ s).summaryHTML = summaryStatsHTML p n (p + n)) := by
  constructor
  · intro h
    refine ⟨?_, ?_, ?_⟩ <;> simp [displayResults, h]
  · intro h
    simp [displayResults, h]

/-- Witness for C6 at the zero model and at a populated model. -/
theorem c6_witness :
    ((displayResults ⟨none, 0, 0⟩ initialState).summaryHTML = noCommentsHTML ∧
      (displayResults ⟨none, 0, 0⟩ initialState).log = initialState.log ∧
      (displayResults ⟨none, 0, 0⟩ initialState).resultsDisplay = "flex") ∧
    (displayResults ⟨none, 10, 5⟩ initialState).summaryHTML = summaryStatsHTML 10 5 (10 + 5) :=
  ⟨(c6_renderer_branches none 0 0 initialState).1 rfl,
    (c6_renderer_branches none 10 5 initialState).2 (by decide)⟩

/-- C7: under the chart-ownership invariant (which holds initially and is
preserved by every chart operation and every `handleAnalysis` run), at most
one chart instance is alive at any time; and for two successive `present`
calls, the second call destroys the first instance before creating the
second, leaving exactly the second instance alive. -/
theorem c7_chart_lifecycle (s : AppState) (d1 d2 : JsonObj) (hInv : ChartInv s) :
    s.aliveCharts.length ≤ 1 ∧
    (∀ d, ChartInv (createOrUpdateChart d s)) ∧
    ChartInv (clearResults s) ∧
    (∀ i net, ChartInv (handleAnalysis i net s)) ∧
    (createOrUpdateChart d1 s).sentimentChart = some s.nextChartId ∧
    (createOrUpdateChart d2 (createOrUpdateChart d1 s)).aliveCharts = [s.nextChartId + 1] ∧
    ∃ l1,
      (createOrUpdateChart d2 (createOrUpdateChart d1 s)).log =
        l1 ++ [Ev.destroyChart s.nextChartId,
          Ev.createChart (s.nextChartId + 1) d2.positive d2.negative] := by
  obtain ⟨hI1, hA1, hR1, hN1⟩ := chartInv_createOrUpdateChart d1 s hInv
  obtain ⟨hI2, hA2, hR2, hN2⟩ := chartInv_createOrUpdateChart d2 _ hI1
  refine ⟨?_, fun d => (chartInv_createOrUpdateChart d s hInv).1,
    (chartInv_clearResults s hInv).1,
    fun i net => chartInv_handleAnalysis i net s hInv, hR1, ?_, ?_⟩
  · rcases hInv with h | ⟨c, hc, ha⟩
    · simp [h]
    · simp [ha]
  · rw [hA2, hN1]
  · refine ⟨(createOrUpdateChart d1 s).log, ?_⟩
    rw [createOrUpdateChart_log_of_ref (createOrUpdateChart d1 s) d2 s.nextChartId hR1, hN1]

/-- Witness for C7 from the initial state. -/
theorem c7_witness :
    ChartInv initialState ∧
    (initialState.aliveCharts.length ≤ 1 ∧
      (∀ d, ChartInv (createOrUpdateChart d initialState)) ∧
      ChartInv (clearResults initialState) ∧
      (∀ i net, ChartInv (handleAnalysis i net initialState)) ∧
      (createOrUpdateChart ⟨none, 1, 2⟩ initialState).sentimentChart =
        some initialState.nextChartId ∧
      (createOrUpdateChart ⟨none, 3, 4⟩
          (createOrUpdateChart ⟨none, 1, 2⟩ initialState)).aliveCharts =
        [initialState.nextChartId + 1] ∧
      ∃ l1,
        (createOrUpdateChart ⟨none, 3, 4⟩
            (createOrUpdateChart ⟨none, 1, 2⟩ initialState)).log =
          l1 ++ [Ev.destroyChart initialState.nextChartId,
            Ev.createChart (initialState.nextChartId + 1) 3 4]) :=
  ⟨Or.inl rfl, c7_chart_lifecycle initialState ⟨none, 1, 2⟩ ⟨none, 3, 4⟩ (Or.inl rfl)⟩

/-- C8 counterexample: after `clearResults` destroys the live chart, the
reference is not released (it still points at the destroyed instance), and a
second `clearResults` with no live instance is not a no-op: it invokes
destroy on the same instance again. -/
theorem c8_counterexample :
    chartState.sentimentChart = some 0 ∧
    (clearResults chartState).aliveCharts = [] ∧
    (clearResults chartState).sentimentChart ≠ none ∧
    clearResults (clearResults chartState) ≠ clearResults chartState ∧
    (clearResults (clearResults chartState)).log =
      (clearResults chartState).log ++ [Ev.destroyChart 0] := by
  decide

/-- C8 (amended): `clearResults` destroys the instance the chart reference
points to but never releases the reference, so any later clear invokes
destroy on that same instance again; only when no chart reference exists is
clear chart-neutral and idempotent. -/
theorem c8_amended_clear (s : AppState) :
    (clearResults s).sentimentChart = s.sentimentChart ∧
    (∀ c, s.sentimentChart = some c →
      (clearResults s).log = s.log ++ [Ev.destroyChart c] ∧
      (clearResults s).aliveCharts = s.aliveCharts.erase c) ∧
    (s.sentimentChart = none →
      (clearResults s).log = s.log ∧
      clearResults (clearResults s) = clearResults s) := by
  refine ⟨clearResults_sentimentChart s, fun c hc => ?_, fun hn => ?_⟩
  · constructor <;> simp [clearResults, destroyChart, hc]
  · constructor <;> simp [clearResults, destroyChart, hn]

/-- Witness for C8 (amended) with and without a live chart. -/
theorem c8_witness :
    (clearResults chartState).sentimentChart = chartState.sentimentChart ∧
    (clearResults chartState).log = chartState.log ++ [Ev.destroyChart 0] ∧
    (clearResults initialState).log = initialState.log :=
  ⟨(c8_amended_clear chartState).1,
    ((c8_amended_clear chartState).2.1 0 (by decide)).1,
    ((c8_amended_clear initialState).2.2 rfl).1⟩

/-- C9: the tooltip percentage computed by the chart callback equals the
spec formula `round(v / t * 100, 1 decimal place)` (stated in tenths), the
total it divides by is the sum of the two rendered dataset values, and for
positive = 10, negative = 5 the rendered tooltips are
"Positive: 10 (66.7%)" and "Negative: 5 (33.3%)". -/
theorem c9_tooltip_percentage (v t : Nat) (ht : 0 < t) :
    (tooltipPercentTenths (v * 100) t : Int) = specRound1Tenths v t ∧
    (∀ p n : Nat, datasetMetaTotal (dataList p n) = p + n) ∧
    chartTooltip 10 5 0 = "Positive: 10 (66.7%)" ∧
    chartTooltip 10 5 1 = "Negative: 5 (33.3%)" := by
  refine ⟨?_, fun p n => by simp [datasetMetaTotal, dataList], by decide, by decide⟩
  unfold tooltipPercentTenths specRound1Tenths
  rw [percentTenths_eq_floor (v * 100) t ht]
  congr 1
  push_cast
  ring

/-- Witness for C9 at positive = 10, negative = 5 (total 15). -/
theorem c9_witness :
    (0 : Nat) < 15 ∧
    ((tooltipPercentTenths (10 * 100) 15 : Int) = specRound1Tenths 10 15 ∧
      (∀ p n : Nat, datasetMetaTotal (dataList p n) = p + n) ∧
      chartTooltip 10 5 0 = "Positive: 10 (66.7%)" ∧
      chartTooltip 10 5 1 = "Negative: 5 (33.3%)") :=
  ⟨by decide, c9_tooltip_percentage 10 15 (by decide)⟩

/-- C10: for every non-empty trimmed input, the state reached before the
network request is issued has the error message cleared, the summary cleared,
the results region hidden, and no live chart; and the whole run factors as
that pre-fetch state followed by the request and the outcome handling. -/
theorem c10_fresh_attempt (inputValue : String) (net : FetchOutcome) (s : AppState)
    (h : jsTrim inputValue ≠ "") (hInv : ChartInv s) :
    (preFetchState s).errorMessage = "" ∧
    (preFetchState s).summaryHTML = "" ∧
    (preFetchState s).resultsDisplay = "none" ∧
    (preFetchState s).aliveCharts = [] ∧
    handleAnalysis inputValue net s =
      setLoadingState false (dispatchOutcome net
        (recordFetch (jsTrim inputValue) (preFetchState s))) := by
  have hc : ChartInv (setLoadingState true s) := chartInv_of_fields s _ rfl rfl hInv
  refine ⟨?_, ?_, ?_, (chartInv_clearResults _ hc).2, ?_⟩ <;>
    simp [handleAnalysis, preFetchState, h]

/-- Witness for C10 from a state holding stale results and a live chart. -/
theorem c10_witness :
    (jsTrim "u" ≠ "" ∧ ChartInv sResults) ∧
    ((preFetchState sResults).errorMessage = "" ∧
      (preFetchState sResults).summaryHTML = "" ∧
      (preFetchState sResults).resultsDisplay = "none" ∧
      (preFetchState sResults).aliveCharts = [] ∧
      handleAnalysis "u" (FetchOutcome.transportFailure "down") sResults =
        setLoadingState false (dispatchOutcome (FetchOutcome.transportFailure "down")
          (recordFetch (jsTrim "u") (preFetchState sResults)))) :=
  ⟨⟨by decide, Or.inr ⟨0, by decide, by decide⟩⟩,
    c10_fresh_attempt "u" (FetchOutcome.transportFailure "down") sResults (by decide)
      (Or.inr ⟨0, by decide, by decide⟩)⟩
